import Mathlib

/-!
Shallow embedding of `webdriver_kaifuku/__init__.py`: the browser lifecycle
state machine (`BrowserManager`), the two session-factory variants
(`BrowserFactory`, `WharfFactory`) and the bounded-retry helper `tries`.

External collaborators (the selenium client, the wharf container backend,
cleanup callbacks) are modelled as parameters describing their behaviour:
an operation either returns a value (`Except.ok`) or raises an exception
(`Except.error`).  Python exceptions that the module distinguishes are
modelled by the inductive type `Exc`; every constructor of `Exc` models a
subclass of Python's `Exception`, so an `except Exception` clause catches
every `Exc`.

Two facts of the source are modelled explicitly because control flow
depends on them:
  * the `attr.s` class `BrowserManager` (lines 136-139) declares exactly
    the fields `browser_factory` and `browser`, while `quit` (line 222)
    and `open_fresh` (line 238) read `self.factory`; attribute lookup is
    therefore modelled against the declared attribute list and yields
    `AttributeError` for `"factory"`;
  * `BrowserFactory.create` (line 51) takes no parameter besides `self`,
    while `WharfFactory.create` (line 113) calls it with the extra
    positional argument `url_key`; the call is therefore modelled with an
    explicit arity check and yields `TypeError` on mismatch.
-/

namespace WebdriverKaifuku

/-- Exceptions distinguished by the module.  `unexpectedAlertPresent` models
selenium's `UnexpectedAlertPresentException`, a subclass of
`WebDriverException`. -/
inductive Exc where
  | webDriverException
  | unexpectedAlertPresent
  | urlError (errno : Int)
  | runtimeError (msg : String)
  | typeError (msg : String)
  | attributeError (name : String)
  | assertionError
  | otherException (tag : Nat)
deriving DecidableEq, Repr

/-- `isinstance(e, WebDriverException)`: `UnexpectedAlertPresentException`
is a subclass of `WebDriverException`. -/
def Exc.isWebDriverException : Exc → Bool
  | Exc.webDriverException => true
  | Exc.unexpectedAlertPresent => true
  | _ => false

/-- `isinstance(e, URLError)`. -/
def Exc.isURLError : Exc → Bool
  | Exc.urlError _ => true
  | _ => false

/-- `BROWSER_ERRORS = URLError, WebDriverException` (line 23). -/
def BROWSER_ERRORS (e : Exc) : Bool :=
  e.isURLError || e.isWebDriverException

/-- `WHARF_OUTER_RETRIES = 2` (line 24). -/
def WHARF_OUTER_RETRIES : Nat := 2

/-- Modelled from the spec: the helper `tries` lives in the repository
module `webdriver_kaifuku.tries`, which is not part of the given source;
per the spec it invokes the operation, retries on an error matching the
retryable set consuming one attempt per try up to `maxAttempts` total
invocations, propagates the final failing attempt's error unchanged, and
propagates a non-retryable error immediately.  The operation threads a
state `σ` (used to count invocations and to accumulate event traces). -/
def tries {σ α : Type} (maxAttempts : Nat) (retryable : Exc → Bool)
    (op : σ → σ × Except Exc α) (s : σ) : σ × Except Exc α :=
  match maxAttempts with
  | 0 => (s, Except.error Exc.assertionError)
  | 1 => op s
  | n + 2 =>
    match op s with
    | (s', Except.ok v) => (s', Except.ok v)
    | (s', Except.error e) =>
      if retryable e then tries (n + 1) retryable op s' else (s', Except.error e)

deriving instance DecidableEq for Except

/-- A live selenium session handle.  `currentUrl` is the behaviour of
reading `handle.current_url`, `quitBeh` the behaviour of `handle.quit()`;
`cleanup` models the dynamically injected `__cleanup` attribute
(`none` when the attribute was never set).  `fileDetectorUseless` and
`maximized` record the post-creation adjustments of
`BrowserFactory.create`. -/
structure Handle where
  id : Nat
  currentUrl : Except Exc String
  quitBeh : Except Exc Unit
  cleanup : Option (List Nat) := none
  fileDetectorUseless : Bool := false
  maximized : Bool := false
deriving DecidableEq, Repr

/-- The behaviour of the webdriver constructor call inside `tries`:
`ctor k` is the outcome of its `k`-th invocation; the state counts
invocations. -/
def webdriverConstructorOp (ctor : Nat → Except Exc Handle) (k : Nat) :
    Nat × Except Exc Handle :=
  (k + 1, ctor k)

/-- Message of the `RuntimeError` raised by `BrowserFactory.create`
(lines 62-64). -/
def seleniumUnreachableMsg : String :=
  "Could not connect to Selenium server. Is it up and running?"

/-- `BrowserFactory.create` (lines 51-71): run the constructor under
`tries(2, WebDriverException, ...)`; an escaping `URLError` with
`errno == 111` is translated to a `RuntimeError`, any other escaping
`URLError` is re-raised unchanged; on success set the file detector and
maximize the window before returning the handle. -/
def BrowserFactory.create (ctor : Nat → Except Exc Handle) : Except Exc Handle :=
  match (tries 2 Exc.isWebDriverException (webdriverConstructorOp ctor) 0).2 with
  | Except.error (Exc.urlError errno) =>
    if errno = 111 then
      Except.error (Exc.runtimeError seleniumUnreachableMsg)
    else
      Except.error (Exc.urlError errno)
  | Except.error e => Except.error e
  | Except.ok b =>
    Except.ok { b with fileDetectorUseless := true, maximized := true }

/-- Observable events of the factory and manager operations, in the order
they happen. -/
inductive Event where
  | checkout (succeeded : Bool)
  | checkin
  | createCall
  | closeCall
  | callbackRun (id : Nat)
deriving DecidableEq, Repr

/-- `BrowserFactory.close` (lines 73-75): `if browser: browser.quit()`.
Returns the events performed and the outcome (`browser.quit()` may raise). -/
def BrowserFactory.close (browser : Option Handle) : List Event × Except Exc Unit :=
  match browser with
  | none => ([], Except.ok ())
  | some b => ([Event.closeCall], b.quitBeh)

/-- Number of parameters besides `self` accepted by
`BrowserFactory.create` as defined at line 51. -/
def browserFactoryCreateArity : Nat := 0

/-- Message of the `TypeError` raised when `BrowserFactory.create` is
called with a positional argument it does not accept. -/
def arityTypeErrorMsg : String :=
  "create takes 1 positional argument but 2 were given"

/-- A Python call to `BrowserFactory.create` with the given positional
arguments: a `TypeError` is raised when the argument count does not match
the definition's arity. -/
def callBrowserFactoryCreate (args : List Unit) (ctor : Nat → Except Exc Handle) :
    Except Exc Handle :=
  if args.length = browserFactoryCreateArity then
    BrowserFactory.create ctor
  else
    Except.error (Exc.typeError arityTypeErrorMsg)

/-- State threaded through `WharfFactory.create`: the index of the next
`wharf.checkout()` call (selecting its behaviour) and the accumulated
event trace. -/
structure WharfState where
  checkoutIdx : Nat
  trace : List Event
deriving DecidableEq, Repr

/-- The `inner` closure of `WharfFactory.create` (lines 110-125): check out
a container, then call `super(WharfFactory, self).create(url_key)` — one
positional argument against an arity of zero.  Any `URLError` is handled by
the first `except` clause and any other exception by the second; both check
the container back in and re-raise. -/
def wharfInner (checkoutBeh : Nat → Except Exc Unit)
    (ctor : Nat → Except Exc Handle) (s : WharfState) :
    WharfState × Except Exc Handle :=
  match checkoutBeh s.checkoutIdx with
  | Except.error e =>
    -- checkout raised inside the try block: the matching except clause
    -- checks the container back in and re-raises
    if e.isURLError then
      (⟨s.checkoutIdx + 1, s.trace ++ [Event.checkout false, Event.checkin]⟩,
       Except.error e)
    else
      (⟨s.checkoutIdx + 1, s.trace ++ [Event.checkout false, Event.checkin]⟩,
       Except.error e)
  | Except.ok _ =>
    match callBrowserFactoryCreate [()] ctor with
    | Except.ok b =>
      (⟨s.checkoutIdx + 1, s.trace ++ [Event.checkout true]⟩, Except.ok b)
    | Except.error e =>
      if e.isURLError then
        (⟨s.checkoutIdx + 1, s.trace ++ [Event.checkout true, Event.checkin]⟩,
         Except.error e)
      else
        (⟨s.checkoutIdx + 1, s.trace ++ [Event.checkout true, Event.checkin]⟩,
         Except.error e)

/-- `WharfFactory.create` (lines 109-127):
`tries(WHARF_OUTER_RETRIES, BROWSER_ERRORS, inner)`. -/
def WharfFactory.create (checkoutBeh : Nat → Except Exc Unit)
    (ctor : Nat → Except Exc Handle) : WharfState × Except Exc Handle :=
  tries WHARF_OUTER_RETRIES BROWSER_ERRORS (wharfInner checkoutBeh ctor)
    ⟨0, []⟩

/-- `WharfFactory.close` (lines 129-133): `try: super().close(browser)`
with `finally: self.wharf.checkin()` — the checkin runs on every exit path
and the base close's outcome (normal or raised) is then propagated. -/
def WharfFactory.close (browser : Option Handle) : List Event × Except Exc Unit :=
  match BrowserFactory.close browser with
  | (tr, r) => (tr ++ [Event.checkin], r)

/-- Attributes defined on `BrowserManager` instances by the `attr.s`
declaration (lines 136-139): the generated constructor assigns exactly
`browser_factory` and `browser`; no other attribute is ever set. -/
def browserManagerAttrs : List String := ["browser_factory", "browser"]

/-- Python attribute lookup on a `BrowserManager` instance succeeds exactly
for the declared attributes. -/
def managerHasAttr (name : String) : Bool := browserManagerAttrs.contains name

/-- `BrowserManager` (lines 136-139): `browser_factory = attr.ib()` and
`browser = attr.ib(default=None, init=False)`.  The factory's behaviour is
passed to the operations that would use it, so the field itself is opaque. -/
structure BrowserManager where
  browser_factory : Unit := ()
  browser : Option Handle := none
deriving DecidableEq, Repr

/-- `BrowserManager._consume_cleanups` (lines 210-217): read
`self.browser.__cleanup` (an `AttributeError` — browser is `None` or the
attribute was never injected — is passed over), then
`while cl: cl.pop()()`, invoking the callbacks from the last to the first
and leaving the list empty.  Returns the updated manager and the callback
invocations in order. -/
def BrowserManager.consume_cleanups (m : BrowserManager) :
    BrowserManager × List Event :=
  match m.browser with
  | none => (m, [])
  | some b =>
    match b.cleanup with
    | none => (m, [])
    | some cl =>
      ({ m with browser := some { b with cleanup := some [] } },
       cl.reverse.map Event.callbackRun)

/-- `BrowserManager.add_cleanup` (lines 202-208): assert a browser is
owned; read the injected `__cleanup` list, creating it empty on
`AttributeError`; append the callback. -/
def BrowserManager.add_cleanup (m : BrowserManager) (cb : Nat) :
    BrowserManager × Except Exc Unit :=
  match m.browser with
  | none => (m, Except.error Exc.assertionError)
  | some b =>
    let cl := b.cleanup.getD []
    ({ m with browser := some { b with cleanup := some (cl ++ [cb]) } },
     Except.ok ())

/-- The `except Exception` clause of `quit` (lines 223-225): any exception
raised by the try block is logged and swallowed. -/
def swallowException : Except Exc Unit → Except Exc Unit
  | Except.ok _ => Except.ok ()
  | Except.error _ => Except.ok ()

/-- `BrowserManager.quit` (lines 219-227): consume the cleanups, then
`try: self.factory.close(self.browser)` — attribute lookup of `"factory"`
— with `except Exception` logging and swallowing any error and
`finally: self.browser = None`.  `closeBeh` is the behaviour
`self.factory.close` would have on the owned browser if the lookup
succeeded.  Returns the manager, the event trace and the outcome. -/
def BrowserManager.quit (closeBeh : Option Handle → List Event × Except Exc Unit)
    (m : BrowserManager) : BrowserManager × List Event × Except Exc Unit :=
  match m.consume_cleanups with
  | (m1, tr) =>
    let tryBlock : List Event × Except Exc Unit :=
      if managerHasAttr "factory" then closeBeh m1.browser
      else ([], Except.error (Exc.attributeError "factory"))
    ({ m1 with browser := none }, tr ++ tryBlock.1, swallowException tryBlock.2)

/-- `BrowserManager.open_fresh` (lines 234-239): assert no browser is
owned, then `self.browser = self.factory.create()` — attribute lookup of
`"factory"` — and return the stored browser.  `createBeh` is the behaviour
`self.factory.create()` would have if the lookup succeeded. -/
def BrowserManager.open_fresh (createBeh : List Event × Except Exc Handle)
    (m : BrowserManager) : BrowserManager × List Event × Except Exc (Option Handle) :=
  match m.browser with
  | some _ => (m, [], Except.error Exc.assertionError)
  | none =>
    if managerHasAttr "factory" then
      match createBeh with
      | (tr, Except.ok h) => ({ m with browser := some h }, tr, Except.ok (some h))
      | (tr, Except.error e) => (m, tr, Except.error e)
    else
      (m, [], Except.error (Exc.attributeError "factory"))

/-- `BrowserManager.start` (lines 229-232): quit first when a browser is
owned, then `open_fresh`. -/
def BrowserManager.start (closeBeh : Option Handle → List Event × Except Exc Unit)
    (createBeh : List Event × Except Exc Handle) (m : BrowserManager) :
    BrowserManager × List Event × Except Exc (Option Handle) :=
  match m.browser with
  | some _ =>
    match m.quit closeBeh with
    | (m1, tr1, _) =>
      match m1.open_fresh createBeh with
      | (m2, tr2, r) => (m2, tr1 ++ tr2, r)
  | none => m.open_fresh createBeh

/-- Reading `self.browser.current_url` (line 187): an `AttributeError` when
no browser is owned, otherwise the handle's behaviour. -/
def currentUrlAccess : Option Handle → Except Exc String
  | none => Except.error (Exc.attributeError "current_url")
  | some b => b.currentUrl

/-- `BrowserManager._is_alive` (lines 184-194): probe
`self.browser.current_url`; `except UnexpectedAlertPresentException`
returns `True`, `except Exception` returns `False`, a normal read returns
`True`.  The result is `Except` so that the absence of escaping exceptions
is a theorem about the definition, not a typing artifact. -/
def BrowserManager.is_alive (m : BrowserManager) : Except Exc Bool :=
  match currentUrlAccess m.browser with
  | Except.ok _ => Except.ok true
  | Except.error Exc.unexpectedAlertPresent => Except.ok true
  | Except.error _ => Except.ok false

/-- `BrowserManager.ensure_open` (lines 196-200): return the owned browser
when the probe reports alive, otherwise `start()`. -/
def BrowserManager.ensure_open (closeBeh : Option Handle → List Event × Except Exc Unit)
    (createBeh : List Event × Except Exc Handle) (m : BrowserManager) :
    BrowserManager × List Event × Except Exc (Option Handle) :=
  match m.is_alive with
  | Except.ok true => (m, [], Except.ok m.browser)
  | _ => m.start closeBeh createBeh

/-! Concrete fixtures reused across the theorems below. -/

/-- A healthy handle: its url reads succeed and its `quit()` succeeds. -/
def sampleHandle : Handle :=
  { id := 0, currentUrl := Except.ok "about page", quitBeh := Except.ok () }

/-- A handle whose `current_url` read raises
`UnexpectedAlertPresentException`. -/
def alertHandle : Handle :=
  { id := 1, currentUrl := Except.error Exc.unexpectedAlertPresent,
    quitBeh := Except.ok () }

/-- A freshly constructed manager: no browser owned. -/
def closedManager : BrowserManager := {}

/-- A checkout behaviour that always succeeds. -/
def alwaysCheckoutOk : Nat → Except Exc Unit := fun _ => Except.ok ()

/-- A factory-close behaviour that always raises. -/
def raisingCloseBeh : Option Handle → List Event × Except Exc Unit :=
  fun _ => ([Event.closeCall], Except.error Exc.webDriverException)

/-- A factory-create behaviour that returns `sampleHandle`. -/
def okCreateBeh : List Event × Except Exc Handle :=
  ([Event.createCall], Except.ok sampleHandle)

/-- An operation that raises on every invocation: the threaded state counts
invocations and `errAt k` is the error raised by the `k`-th one. -/
def countingFailOp (errAt : Nat → Exc) (k : Nat) : Nat × Except Exc Unit :=
  (k + 1, Except.error (errAt k))

/-- The events performed by a `quit` call, in order. -/
def quitTrace (closeBeh : Option Handle → List Event × Except Exc Unit)
    (m : BrowserManager) : List Event :=
  (m.quit closeBeh).2.1

/-! Helper lemmas shared by several claims. -/

lemma swallowException_ok (r : Except Exc Unit) :
    swallowException r = Except.ok () := by
  cases r <;> rfl

lemma managerHasAttr_factory : managerHasAttr "factory" = false := by
  decide

lemma tries_all_fail {retryable : Exc → Bool} {errAt : Nat → Exc}
    (hr : ∀ k, retryable (errAt k) = true) :
    ∀ n s, tries (n + 1) retryable (countingFailOp errAt) s =
      (s + (n + 1), Except.error (errAt (s + n)))
  | 0, s => by simp [tries, countingFailOp]
  | n + 1, s => by
    have hstep : n + 1 + 1 = n + 2 := rfl
    rw [hstep]
    have ih := tries_all_fail hr n (s + 1)
    have e1 : s + 1 + (n + 1) = s + (n + 1 + 1) := by omega
    have e2 : s + 1 + n = s + (n + 1) := by omega
    simp only [tries, countingFailOp, hr s, if_true]
    rw [ih, e1, e2]

/-- C1: on a Closed manager, `open_fresh` does not call the factory's
`create` and does not store a handle: the `attr.s` declaration defines the
field `browser_factory`, the body reads `self.factory`, so the lookup
raises `AttributeError` with no create event and the manager stays
browserless; invoked while a handle is owned, the `assert` raises first. -/
theorem open_fresh_raises_attribute_error :
    BrowserManager.open_fresh okCreateBeh closedManager =
      (closedManager, [], Except.error (Exc.attributeError "factory"))
    ∧ (BrowserManager.open_fresh okCreateBeh
        { browser := some sampleHandle }).2.2 =
        Except.error Exc.assertionError := by
  constructor <;> rfl

/-- C2: for every behaviour of the factory's close operation and every
manager, `quit` never propagates an exception and always ends with the
owned handle cleared to `None`. -/
theorem quit_never_raises_and_clears_browser
    (closeBeh : Option Handle → List Event × Except Exc Unit)
    (m : BrowserManager) :
    (m.quit closeBeh).2.2 = Except.ok () ∧
      (m.quit closeBeh).1.browser = none := by
  rcases hc : m.consume_cleanups with ⟨m1, tr⟩
  refine ⟨?_, ?_⟩ <;> simp [BrowserManager.quit, hc, swallowException_ok]

/-- C3: in the container-backed `create`, every attempt whose `checkout()`
succeeds ends with the creation failing and `checkin()` being called
exactly once, after the checkout and before the error is returned to the
outer retry helper. -/
theorem wharf_inner_checkin_per_successful_checkout
    (checkoutBeh : Nat → Except Exc Unit) (ctor : Nat → Except Exc Handle)
    (s : WharfState) (h : checkoutBeh s.checkoutIdx = Except.ok ()) :
    ∃ e : Exc, wharfInner checkoutBeh ctor s =
      (⟨s.checkoutIdx + 1, s.trace ++ [Event.checkout true, Event.checkin]⟩,
       Except.error e) := by
  refine ⟨Exc.typeError arityTypeErrorMsg, ?_⟩
  simp [wharfInner, h, callBrowserFactoryCreate, browserFactoryCreateArity,
    Exc.isURLError]

theorem wharf_inner_checkin_per_successful_checkout_witness :
    alwaysCheckoutOk 0 = Except.ok () ∧
      ∃ e : Exc,
        wharfInner alwaysCheckoutOk (fun _ => Except.ok sampleHandle) ⟨0, []⟩ =
          (⟨1, [Event.checkout true, Event.checkin]⟩, Except.error e) :=
  ⟨rfl, wharf_inner_checkin_per_successful_checkout alwaysCheckoutOk
    (fun _ => Except.ok sampleHandle) ⟨0, []⟩ rfl⟩

/-- C4: with a healthy container backend, `WharfFactory.create` performs a
single checkout and surfaces a `TypeError` — the call
`super(WharfFactory, self).create(url_key)` passes an argument
`BrowserFactory.create` does not accept — so no second checkout/create
attempt occurs; moreover the retry set `BROWSER_ERRORS` does not contain
the `RuntimeError` used for the backend-unreachable condition. -/
theorem wharf_create_does_not_retry_backend_unreachable :
    WharfFactory.create alwaysCheckoutOk
        (fun _ => Except.error (Exc.urlError 111)) =
      (⟨1, [Event.checkout true, Event.checkin]⟩,
       Except.error (Exc.typeError arityTypeErrorMsg))
    ∧ BROWSER_ERRORS (Exc.runtimeError seleniumUnreachableMsg) = false := by
  constructor <;> rfl

/-- C5: `WharfFactory.close` performs the base-variant close first and
then checks the container back in on every exit path — the events are the
base close's events followed by exactly one checkin, and the base close's
outcome (normal or raised) is then propagated. -/
theorem wharf_close_checks_in_on_every_exit_path (browser : Option Handle) :
    WharfFactory.close browser =
      ((BrowserFactory.close browser).1 ++ [Event.checkin],
       (BrowserFactory.close browser).2)
    ∧ (WharfFactory.close browser).1.count Event.checkin = 1
    ∧ (WharfFactory.close browser).1.getLast? = some Event.checkin := by
  refine ⟨rfl, ?_, ?_⟩ <;> cases browser <;> rfl

/-- C6: for every `maxAttempts ≥ 1` and every operation raising a
retryable error on each invocation, `tries` invokes the operation exactly
`maxAttempts` times and raises the error of the last attempt unchanged. -/
theorem tries_exhausts_attempts_and_raises_last (n : Nat)
    (retryable : Exc → Bool) (errAt : Nat → Exc) (h1 : 1 ≤ n)
    (hr : ∀ k, retryable (errAt k) = true) :
    tries n retryable (countingFailOp errAt) 0 =
      (n, Except.error (errAt (n - 1))) := by
  obtain ⟨m, rfl⟩ : ∃ m, n = m + 1 := ⟨n - 1, by omega⟩
  simpa using tries_all_fail hr m 0

theorem tries_exhausts_attempts_and_raises_last_witness :
    (1 ≤ 2) ∧
      tries 2 Exc.isWebDriverException
        (countingFailOp fun _ => Exc.webDriverException) 0 =
        (2, Except.error Exc.webDriverException) :=
  ⟨by decide,
   tries_exhausts_attempts_and_raises_last 2 Exc.isWebDriverException
     (fun _ => Exc.webDriverException) (by decide) (fun _ => rfl)⟩

/-- C7: `quit` invokes the attached cleanup callbacks exactly once each, in
reverse order of attachment, and any close attempt in the event trace can
only come after every callback invocation. -/
theorem quit_runs_cleanups_in_reverse_before_close
    (closeBeh : Option Handle → List Event × Except Exc Unit)
    (b : Handle) (cbs : List Nat) :
    quitTrace closeBeh { browser := some { b with cleanup := some cbs } } =
      cbs.reverse.map Event.callbackRun
    ∧ ∀ (i j : Nat) (c : Nat),
        (quitTrace closeBeh
          { browser := some { b with cleanup := some cbs } })[i]? =
            some (Event.callbackRun c) →
        (quitTrace closeBeh
          { browser := some { b with cleanup := some cbs } })[j]? =
            some Event.closeCall →
        i < j := by
  have htr : quitTrace closeBeh
      { browser := some { b with cleanup := some cbs } } =
      cbs.reverse.map Event.callbackRun := by
    simp [quitTrace, BrowserManager.quit, BrowserManager.consume_cleanups,
      managerHasAttr_factory]
  refine ⟨htr, ?_⟩
  intro i j c hi hj
  rw [htr, List.getElem?_map] at hj
  cases hcc : (cbs.reverse)[j]? with
  | none => rw [hcc] at hj; simp at hj
  | some a => rw [hcc] at hj; simp at hj

theorem quit_runs_cleanups_in_reverse_before_close_witness :
    quitTrace raisingCloseBeh
      { browser := some { sampleHandle with cleanup := some [1, 2] } } =
      [Event.callbackRun 2, Event.callbackRun 1] :=
  (quit_runs_cleanups_in_reverse_before_close raisingCloseBeh
    sampleHandle [1, 2]).1

/-- C8: a handle whose `current_url` read raises
`UnexpectedAlertPresentException` is classified alive, and `ensure_open`
returns the existing handle unchanged, with no events (in particular no
create) and no state transition. -/
theorem alert_probe_alive_ensure_open_keeps_handle
    (closeBeh : Option Handle → List Event × Except Exc Unit)
    (createBeh : List Event × Except Exc Handle) (b : Handle)
    (h : b.currentUrl = Except.error Exc.unexpectedAlertPresent) :
    BrowserManager.is_alive { browser := some b } = Except.ok true
    ∧ BrowserManager.ensure_open closeBeh createBeh { browser := some b } =
        ({ browser := some b }, [], Except.ok (some b)) := by
  have ha : BrowserManager.is_alive { browser := some b } = Except.ok true := by
    simp [BrowserManager.is_alive, currentUrlAccess, h]
  refine ⟨ha, ?_⟩
  simp [BrowserManager.ensure_open, ha]

theorem alert_probe_alive_ensure_open_keeps_handle_witness :
    alertHandle.currentUrl = Except.error Exc.unexpectedAlertPresent
    ∧ (BrowserManager.is_alive { browser := some alertHandle } = Except.ok true
       ∧ BrowserManager.ensure_open raisingCloseBeh okCreateBeh
           { browser := some alertHandle } =
           ({ browser := some alertHandle }, [], Except.ok (some alertHandle))) :=
  ⟨rfl, alert_probe_alive_ensure_open_keeps_handle raisingCloseBeh okCreateBeh
    alertHandle rfl⟩

/-- C9: in the direct factory's `create`, a `URLError` raised by the first
constructor invocation is translated to the clearly-worded `RuntimeError`
when its errno is 111 and propagates unchanged otherwise. -/
theorem create_classifies_connection_refused (ctor : Nat → Except Exc Handle)
    (n : Int) (h : ctor 0 = Except.error (Exc.urlError n)) :
    BrowserFactory.create ctor =
      (if n = 111 then Except.error (Exc.runtimeError seleniumUnreachableMsg)
       else Except.error (Exc.urlError n)) := by
  have hop : webdriverConstructorOp ctor 0 = (1, Except.error (Exc.urlError n)) := by
    simp [webdriverConstructorOp, h]
  simp [BrowserFactory.create, tries, hop, Exc.isWebDriverException]

theorem create_classifies_connection_refused_witness :
    ((fun _ => Except.error (Exc.urlError 111)) : Nat → Except Exc Handle) 0 =
      Except.error (Exc.urlError 111)
    ∧ BrowserFactory.create (fun _ => Except.error (Exc.urlError 111)) =
        Except.error (Exc.runtimeError seleniumUnreachableMsg) :=
  ⟨rfl, by
    have := create_classifies_connection_refused
      (fun _ => Except.error (Exc.urlError 111)) 111 rfl
    simpa using this⟩

/-- C10: the liveness probe is total — for every manager it returns a
boolean and propagates no exception; on a Closed manager the probe reports
dead and `ensure_open` proceeds through `start()` instead of raising from
the null-handle access. -/
theorem probe_total_and_closed_manager_starts
    (closeBeh : Option Handle → List Event × Except Exc Unit)
    (createBeh : List Event × Except Exc Handle) (m : BrowserManager)
    (h : m.browser = none) :
    (∀ m' : BrowserManager, ∃ b, m'.is_alive = Except.ok b)
    ∧ m.is_alive = Except.ok false
    ∧ m.ensure_open closeBeh createBeh = m.start closeBeh createBeh := by
  have htot : ∀ m' : BrowserManager, ∃ b, m'.is_alive = Except.ok b := by
    intro m'
    cases hc : currentUrlAccess m'.browser with
    | ok v => exact ⟨true, by simp [BrowserManager.is_alive, hc]⟩
    | error e =>
      cases e
      case unexpectedAlertPresent =>
        exact ⟨true, by simp [BrowserManager.is_alive, hc]⟩
      all_goals exact ⟨false, by simp [BrowserManager.is_alive, hc]⟩
  have hdead : m.is_alive = Except.ok false := by
    simp [BrowserManager.is_alive, currentUrlAccess, h]
  refine ⟨htot, hdead, ?_⟩
  simp [BrowserManager.ensure_open, hdead]

theorem probe_total_and_closed_manager_starts_witness :
    closedManager.browser = none
    ∧ ((∀ m' : BrowserManager, ∃ b, m'.is_alive = Except.ok b)
       ∧ closedManager.is_alive = Except.ok false
       ∧ closedManager.ensure_open raisingCloseBeh okCreateBeh =
           closedManager.start raisingCloseBeh okCreateBeh) :=
  ⟨rfl, probe_total_and_closed_manager_starts raisingCloseBeh okCreateBeh
    closedManager rfl⟩

end WebdriverKaifuku
